import Mathlib

/-!
Verification of the Aira conversational-support backend
(`src/agent.py`, `src/main.py`) against its specification.

The Python modules are shallowly embedded: pure string helpers become Lean
functions on `String`, the polymorphic agent run result becomes an explicit
inductive shape, and the `POST /chat` handler becomes a function returning
`Except HTTPError ChatResponse`. The external model provider is a parameter
(`run : Agent → String → RunOutcome`), and `os.getenv("DB_PATH")` is a
parameter of type `Option String`.
-/

/-- Whether `needle` occurs as a contiguous sublist of `haystack`, by testing
it as a prefix at every suffix. -/
def listContains (needle : List Char) : List Char → Bool
  | [] => needle.isEmpty
  | h :: t => needle.isPrefixOf (h :: t) || listContains needle t

/-- Python's substring test `needle in haystack` on strings. -/
def strContains (needle haystack : String) : Bool :=
  listContains needle.data haystack.data

/-- Python string truthiness / emptiness, computed structurally on the
character list. -/
def strIsEmpty (s : String) : Bool :=
  s.data.isEmpty

/-- Python's `str.lower()`, at the ASCII level of `Char.toLower` (all the
crisis keywords and language codes are ASCII). -/
def strToLower (s : String) : String :=
  String.mk (s.data.map Char.toLower)

/-- A space or a tab: the characters `textwrap.dedent` treats as
indentation. -/
def isIndentChar (c : Char) : Bool :=
  c = ' ' || c = '\t'

/-- Split a character list at newline characters, like Python's
`text.split('\n')`: the empty text gives one empty line, and a trailing
newline gives a final empty line. -/
def splitLines : List Char → List (List Char)
  | [] => [[]]
  | c :: t =>
    if c = '\n' then [] :: splitLines t
    else
      match splitLines t with
      | l :: ls => (c :: l) :: ls
      | [] => [[c]]

/-- Join lines with newline characters (inverse of `splitLines`). -/
def joinLines : List (List Char) → List Char
  | [] => []
  | [l] => l
  | l :: ls => l ++ '\n' :: joinLines ls

/-- A line consisting solely of spaces and tabs (and at least one of them),
as matched by `textwrap`'s whitespace-only-line pattern. -/
def isWhitespaceOnly (l : List Char) : Bool :=
  !l.isEmpty && l.all isIndentChar

/-- Longest common prefix of two character lists. -/
def commonIndent : List Char → List Char → List Char
  | a :: as, b :: bs => if a = b then a :: commonIndent as bs else []
  | _, _ => []

/-- Python's `textwrap.dedent`: whitespace-only lines are normalized to empty
lines, the longest common leading-whitespace margin of the remaining lines is
computed, and that margin is stripped from the front of every line carrying
it. -/
def dedent (text : String) : String :=
  let lines := (splitLines text.data).map (fun l => if isWhitespaceOnly l then [] else l)
  let indents := (lines.filter (fun l => !l.isEmpty)).map (fun l => l.takeWhile isIndentChar)
  let margin : List Char :=
    match indents with
    | [] => []
    | i :: rest => rest.foldl commonIndent i
  String.mk (joinLines (lines.map (fun l =>
    if margin.isPrefixOf l then l.drop margin.length else l)))

/-! ## src/agent.py -/

/-- `LANGUAGE_NAMES`: language display names (src/agent.py). -/
def LANGUAGE_NAMES : List (String × String) :=
  [("en", "English"), ("hi", "Hindi (हिंदी)"), ("te", "Telugu (తెలుగు)"), ("ta", "Tamil (தமிழ்)"), ("kn", "Kannada (ಕನ್ನಡ)")]

/-- `LANGUAGE_NAMES.get(language, 'English')` in `create_agent`. -/
def lang_name (language : String) : String :=
  ((LANGUAGE_NAMES.lookup language).getD "English")

/-- The `language_instruction` f-string of `create_agent`, with `lang_name`
interpolated at its two holes. -/
def languageInstructionText (n : String) : String :=
  "\n    \n    IMPORTANT: You MUST respond in " ++ n ++
  ". \n    The user may write in any language, but you should ALWAYS respond in " ++ n ++
  ".\n    If the language is Hindi, Telugu, Tamil, or Kannada, use the native script.\n    "

/-- The conditional `language_instruction` value in `create_agent`
(src/agent.py): the override block unless the code is exactly "en". -/
def language_instruction (language : String) : String :=
  if language != "en" then languageInstructionText (lang_name language) else ""

/-- The persona f-string of `create_agent` before the
`language_instruction` hole (after the opening line join). -/
def personaBeforeLang : String := "            You are Aira — the user's warm, caring best friend who happens to be \n            amazing at emotional support.\n            "

/-- The persona f-string of `create_agent` after the
`language_instruction` hole. -/
def personaAfterLang : String := "\n            \n            Your vibe:\n            - You're like that one friend who always knows what to say\n            - Warm, genuine, and relatable — not robotic or clinical\n            - You use casual, friendly language (but still thoughtful)\n            - You remember you're chatting with a friend, not a patient\n            \n            How you talk:\n            - Keep it natural and conversational\n            - Use \"hey\", \"I get it\", \"that sounds tough\", \"honestly\"\n            - Short, punchy responses when appropriate\n            - Longer, thoughtful ones when they need it\n            - Match their energy — if they're casual, you're casual\n            - It's okay to be playful when the mood is light\n            \n            What makes you a great friend:\n            - You actually listen and remember what they share\n            - You validate without judgment\n            - You ask the right follow-up questions\n            - You know when to just be there vs. when to offer advice\n            - You gently push them when they're stuck, but never force\n            \n            You're still emotionally intelligent:\n            - Notice when something feels off\n            - Gently check in on how they're really doing\n            - Encourage them to reach out to real people when things get heavy\n            - Know when humor helps vs. when they need serious support\n            \n            What you DON'T do:\n            - Sound like a therapist or chatbot\n            - Use formal or clinical language\n            - Give unsolicited lectures\n            - Be fake positive or dismissive\n            - Enable harmful thinking\n            \n            Your goal: Make them feel like they're texting their most \n            understanding, emotionally intelligent best friend who always \n            has time for them.\n            \n            You are Aira — their person. 💚\n        "

/-- The `instructions=dedent(f\"\"\"...\"\"\")` argument of the `Agent`
constructed by `create_agent`, as a function of the language code. -/
def agent_instructions (language : String) : String :=
  dedent (personaBeforeLang ++ language_instruction language ++ personaAfterLang)

/-- The fields of the `Agent` that `create_agent` constructs (src/agent.py):
the model identifier, the SQLite db file, the instruction prompt, the
user/session partition key, and the markdown flag. -/
structure Agent where
  model : String
  db_file : String
  instructions : String
  user_id : String
  session_id : String
  markdown : Bool
deriving DecidableEq

/-- `create_agent(user_id, session_id, language=\"en\")` (src/agent.py).
`DB_PATH` stands for `os.getenv(\"DB_PATH\")`. -/
def create_agent (DB_PATH : Option String) (user_id : String) (session_id : String)
    (language : String := "en") : Agent :=
  let db_path := DB_PATH.getD "data/aira.db"
  ⟨"gemini-2.0-flash", db_path, agent_instructions language, user_id, session_id, true⟩

/-- `CRISIS_KEYWORDS` (src/agent.py). -/
def CRISIS_KEYWORDS : List String :=
  ["suicide", "kill myself", "end my life", "want to die",
   "self harm", "cut myself", "hurt myself", "no reason to live",
   "suicidal", "ending it all", "better off dead"]

/-- `detect_crisis(message)` (src/agent.py): lower-case the message and test
each crisis keyword for substring occurrence. -/
def detect_crisis (message : String) : Bool :=
  let message_lower := strToLower message
  CRISIS_KEYWORDS.any (fun keyword => strContains keyword message_lower)

/-- The raw literal inside `get_crisis_response` before `dedent`
(src/agent.py). -/
def crisisResponseRaw : String := "        I hear that you're going through something really difficult right now. \n        Your feelings are valid, and I'm glad you're reaching out.\n        \n        Please know that you don't have to face this alone. \n        There are people who want to help:\n        \n        🇮🇳 India:\n        - iCall: 9152987821\n        - Vandrevala Foundation: 1860-2662-345\n        - NIMHANS: 080-46110007\n        \n        🌍 International:\n        - International Association for Suicide Prevention: \n          https://www.iasp.info/resources/Crisis_Centres/\n        \n        Would you like to talk about what you're feeling? \n        I'm here to listen, and there's no rush.\n    "

/-- `get_crisis_response()` (src/agent.py): the fixed crisis-support text. -/
def get_crisis_response : String := dedent crisisResponseRaw

/-! ## src/main.py: request/response models and the run-result shape -/

/-- `ChatRequest` (src/main.py): message plus optional session/user ids. The
`Field(min_length=1, max_length=5000)` constraint is checked by
`validate_chat_request` below. -/
structure ChatRequest where
  message : String
  session_id : Option String
  user_id : Option String
deriving DecidableEq

/-- `ChatResponse` (src/main.py). -/
structure ChatResponse where
  response : String
  session_id : String
  is_crisis : Bool
deriving DecidableEq

/-- An HTTP error as raised by the endpoint (`HTTPException`) or by request
validation. -/
structure HTTPError where
  status_code : Nat
  detail : String
deriving DecidableEq

/-- The `content` value carried by a run response or by one of its messages:
an object with a `.text` field (first component) and a `str()` form (second),
a plain Python string, or any other object with its `str()` form. -/
inductive ContentVal where
  | textObj (text : String) (s : String)
  | str (s : String)
  | other (s : String)
deriving DecidableEq

/-- Python truthiness of a content value: a plain string is truthy iff
non-empty; other objects are truthy. -/
def ContentVal.isTruthy : ContentVal → Bool
  | ContentVal.str s => !strIsEmpty s
  | _ => true

/-- Python `str()` of a content value. -/
def ContentVal.pyStr : ContentVal → String
  | ContentVal.textObj _ s => s
  | ContentVal.str s => s
  | ContentVal.other s => s

/-- A message of `run_response.messages`; `content = none` models a message
without a `content` attribute. -/
structure AgentMessage where
  content : Option ContentVal
deriving DecidableEq

/-- The polymorphic result of `agent.run(...)`: an optional `content`
attribute, an optional `messages` attribute, and its `str()` form. -/
structure RunResponse where
  content : Option ContentVal
  messages : Option (List AgentMessage)
  pyStr : String
deriving DecidableEq

/-- Strategy 1 of the extraction block in `chat` (src/main.py): a content
object's nested `.text` field, a plain string directly, else `str(content)`. -/
def contentToText : ContentVal → String
  | ContentVal.textObj t _ => t
  | ContentVal.str s => s
  | ContentVal.other s => s

/-- The message-loop rule of `chat` (src/main.py): a plain string directly,
else `str(content)` (no nested `.text` probe in this loop). -/
def messageContentToText : ContentVal → String
  | ContentVal.str s => s
  | c => c.pyStr

/-- The `for msg in reversed(run_response.messages)` loop of `chat`
(src/main.py), applied to the already-reversed list: the first message with a
truthy `content` yields the text; otherwise `response_text` stays empty. -/
def scanMessages : List AgentMessage → String
  | [] => ""
  | m :: rest =>
    match m.content with
    | Option.some c => if c.isTruthy then messageContentToText c else scanMessages rest
    | Option.none => scanMessages rest

/-- The `elif ... messages ... else: str(run_response)` part of the extraction
block in `chat` (src/main.py). -/
def messagesOrRepr (rr : RunResponse) : String :=
  match rr.messages with
  | Option.some ms => if ms.isEmpty then rr.pyStr else scanMessages ms.reverse
  | Option.none => rr.pyStr

/-- The whole `response_text` extraction block of `chat` (src/main.py),
before the error filter. `none` models `run_response is None`, for which
`response_text` keeps its initial empty value. -/
def extract_response_text (run_response : Option RunResponse) : String :=
  match run_response with
  | Option.none => ""
  | Option.some rr =>
    match rr.content with
    | Option.some c => if c.isTruthy then contentToText c else messagesOrRepr rr
    | Option.none => messagesOrRepr rr

/-- The fixed fallback of the error filter in `chat` (src/main.py). -/
def FALLBACK_TEXT : String := "I'm here with you. Would you like to share more?"

/-- The `# Filter out error-like responses` step of `chat` (src/main.py). -/
def filter_response_text (response_text : String) : String :=
  if strIsEmpty response_text || strContains "<Response" response_text ||
      strContains "Error" response_text then
    FALLBACK_TEXT
  else response_text

/-- Extraction followed by the error filter: the complete Response Normalizer
of the chat endpoint. -/
def extract_text (run_response : Option RunResponse) : String :=
  filter_response_text (extract_response_text run_response)

/-! ## src/main.py: the POST /chat handler -/

/-- `request.session_id or str(uuid4())` (src/main.py): Python `or` replaces
both a missing and an empty (falsy) session id by the generated one. -/
def resolve_session_id (freshId : String) (req : ChatRequest) : String :=
  match req.session_id with
  | Option.some s => if strIsEmpty s then freshId else s
  | Option.none => freshId

/-- `request.user_id or "anonymous"` (src/main.py). -/
def resolve_user_id (req : ChatRequest) : String :=
  match req.user_id with
  | Option.some u => if strIsEmpty u then "anonymous" else u
  | Option.none => "anonymous"

/-- The detail of the `HTTPException` raised on an unhandled fault in `chat`
(src/main.py). -/
def SERVER_ERROR_DETAIL : String :=
  "I'm having trouble responding right now. Please try again in a moment."

/-- The outcome of `agent.run(message)`: a run response (possibly `None`), or
an exception carrying its internal message. -/
inductive RunOutcome where
  | ok (r : Option RunResponse)
  | exn (msg : String)

/-- The agent the handler constructs: `create_agent(user_id=user_id,
session_id=session_id)` — no `language` argument (src/main.py). -/
def chat_agent (DB_PATH : Option String) (freshId : String) (req : ChatRequest) : Agent :=
  create_agent DB_PATH (resolve_user_id req) (resolve_session_id freshId req)

/-- The body of the `POST /chat` handler (src/main.py), for an
already-validated request. `freshId` stands for `str(uuid4())` and `run`
for the external model invocation `agent.run`; any exception in the
non-crisis branch is modelled by `RunOutcome.exn` and converted to the
fixed 500 error. -/
def chat (DB_PATH : Option String) (freshId : String)
    (run : Agent → String → RunOutcome) (req : ChatRequest) :
    Except HTTPError ChatResponse :=
  let session_id := resolve_session_id freshId req
  if detect_crisis req.message then
    Except.ok ⟨get_crisis_response, session_id, true⟩
  else
    let agent := chat_agent DB_PATH freshId req
    match run agent req.message with
    | RunOutcome.exn _ => Except.error ⟨500, SERVER_ERROR_DETAIL⟩
    | RunOutcome.ok run_response =>
      Except.ok ⟨extract_text run_response, session_id, false⟩

/-- The `ChatRequest` field constraint `min_length=1, max_length=5000` on
`message` (src/main.py). -/
def validate_chat_request (req : ChatRequest) : Bool :=
  1 ≤ req.message.length && req.message.length ≤ 5000

/-- Modelled from the spec: FastAPI/pydantic reject a request violating the
`ChatRequest` field constraints with a 4xx validation error before the
handler body runs; that framework code is not part of this repository. The
length bounds themselves are the `Field(min_length=1, max_length=5000)`
declaration in src/main.py. -/
def VALIDATION_ERROR : HTTPError :=
  ⟨422, "message must have between 1 and 5000 characters"⟩

/-- The full `POST /chat` endpoint: request validation, then the handler. -/
def post_chat (DB_PATH : Option String) (freshId : String)
    (run : Agent → String → RunOutcome) (req : ChatRequest) :
    Except HTTPError ChatResponse :=
  if validate_chat_request req then chat DB_PATH freshId run req
  else Except.error VALIDATION_ERROR

/-! ## The Response Normalizer as the spec words it (for C4) -/

/-- Follows the spec's wording (§4.4, strategy 2): scan the messages from
most recent to oldest and return the first message's content if present,
applying the plain-text-or-default-stringification rule; the spec assigns no
value when no message carries content. -/
def specScanMessages : List AgentMessage → Option String
  | [] => Option.none
  | m :: rest =>
    match m.content with
    | Option.some c =>
      if c.isTruthy then Option.some (messageContentToText c) else specScanMessages rest
    | Option.none => specScanMessages rest

/-- Follows the spec's wording of the Response Normalizer extraction order
(§4.4): (1) non-empty structured content — nested text field, else plain
text, else default stringification; (2) else a non-empty message list,
scanned from most recent to oldest (empty text when no message carries
content, which the post-check then replaces); (3) else the default textual
representation of the whole result. -/
def spec_extract (rr : RunResponse) : String :=
  match rr.content with
  | Option.some c =>
    if c.isTruthy then
      contentToText c
    else
      match rr.messages with
      | Option.some ms =>
        if ms.isEmpty then rr.pyStr else (specScanMessages ms.reverse).getD ""
      | Option.none => rr.pyStr
  | Option.none =>
    match rr.messages with
    | Option.some ms =>
      if ms.isEmpty then rr.pyStr else (specScanMessages ms.reverse).getD ""
    | Option.none => rr.pyStr

/-- Python falsiness of an optional `content` attribute: absent, or present
but falsy (the condition under which the handler's extraction skips it). -/
def contentFalsy : Option ContentVal → Bool
  | Option.some c => !c.isTruthy
  | Option.none => true

/-! ## Helper lemmas -/

set_option maxRecDepth 8192

theorem strIsEmpty_iff (s : String) : strIsEmpty s = true ↔ s = "" := by
  cases s with
  | mk data =>
    simp only [strIsEmpty, List.isEmpty_iff]
    constructor
    · intro h; subst h; rfl
    · intro h
      have := congrArg String.data h
      simpa using this

theorem scanMessages_eq_specScan (l : List AgentMessage) :
    scanMessages l = (specScanMessages l).getD "" := by
  induction l with
  | nil => rfl
  | cons m rest ih =>
    obtain ⟨mc⟩ := m
    cases mc with
    | none => simpa [scanMessages, specScanMessages] using ih
    | some c =>
      by_cases hc : c.isTruthy = true
      · simp [scanMessages, specScanMessages, hc]
      · replace hc : c.isTruthy = false := by
          cases hb : c.isTruthy
          · rfl
          · exact absurd hb hc
        simpa [scanMessages, specScanMessages, hc] using ih

theorem scanMessages_all_falsy (l : List AgentMessage)
    (h : (l.all fun m => contentFalsy m.content) = true) : scanMessages l = "" := by
  induction l with
  | nil => rfl
  | cons m rest ih =>
    simp only [List.all_cons, Bool.and_eq_true] at h
    obtain ⟨mc⟩ := m
    cases mc with
    | none => simpa [scanMessages] using ih h.2
    | some c =>
      have hc : c.isTruthy = false := by
        have := h.1
        simp only [contentFalsy, Bool.not_eq_true'] at this
        exact this
      simpa [scanMessages, hc] using ih h.2

/-! ## Claim theorems -/

/-- C2: for every message string, `detect_crisis` returns true if and only if
the lower-cased message contains at least one of the eleven fixed crisis
phrases as a substring; it is a pure, total, deterministic Lean function. -/
theorem detect_crisis_iff (m : String) :
    detect_crisis m = true ↔
      ∃ k, k ∈ (["suicide", "kill myself", "end my life", "want to die",
          "self harm", "cut myself", "hurt myself", "no reason to live",
          "suicidal", "ending it all", "better off dead"] : List String) ∧
        strContains k (strToLower m) = true := by
  unfold detect_crisis CRISIS_KEYWORDS
  rw [List.any_eq_true]

/-- C5: the error filter replaces an empty extracted text, or one containing
the literal substring "<Response" or the literal substring "Error"
(case-sensitively), by the fixed fallback text; otherwise it returns the text
unchanged; its output is never empty. -/
theorem filter_response_text_spec (s : String) :
    (s = "" ∨ strContains "<Response" s = true ∨ strContains "Error" s = true →
      filter_response_text s = FALLBACK_TEXT) ∧
    (s ≠ "" → strContains "<Response" s = false → strContains "Error" s = false →
      filter_response_text s = s) ∧
    filter_response_text s ≠ "" := by
  refine ⟨?_, ?_, ?_⟩
  · intro h
    unfold filter_response_text
    rcases h with h | h | h
    · subst h
      rfl
    · simp [h]
    · simp [h]
  · intro h1 h2 h3
    have he : strIsEmpty s = false := by
      cases hb : strIsEmpty s
      · rfl
      · exact absurd ((strIsEmpty_iff s).mp hb) h1
    unfold filter_response_text
    simp [he, h2, h3]
  · unfold filter_response_text
    split
    · decide
    · next h =>
      intro hs
      subst hs
      simp [strIsEmpty] at h

/-- C5 witness: the filter at three concrete inputs — a text containing
"Error" is replaced by the fallback, a plain reply passes unchanged. -/
theorem filter_response_text_spec_witness :
    filter_response_text "Some Error occurred" = FALLBACK_TEXT ∧
    filter_response_text "I'm glad you shared that" = "I'm glad you shared that" :=
  ⟨(filter_response_text_spec "Some Error occurred").1 (Or.inr (Or.inr (by decide))),
   (filter_response_text_spec "I'm glad you shared that").2.1 (by decide) (by decide) (by decide)⟩

/-- C3 counterexample: for the unknown language code "fr" the
language-override instruction is NOT absent — `language_instruction` is
non-empty (unlike for "en", where it is empty), and the agent's instruction
text differs from the "en" agent's instruction text. -/
theorem create_agent_unknown_language_counterexample :
    language_instruction "fr" ≠ "" ∧
    language_instruction "en" = "" ∧
    (create_agent Option.none "u" "s" "fr").instructions ≠
      (create_agent Option.none "u" "s" "en").instructions := by
  refine ⟨by decide, rfl, by decide⟩

/-- C3 (amended): for every language code not present in `LANGUAGE_NAMES`,
`create_agent` resolves the language name to "English", but — since the code
differs from "en" — it still appends the (non-empty) language-override
instruction block, instantiated with "English", to the instruction text. -/
theorem create_agent_unknown_language (language : String)
    (h : LANGUAGE_NAMES.lookup language = Option.none) :
    lang_name language = "English" ∧
    language_instruction language = languageInstructionText "English" ∧
    languageInstructionText "English" ≠ "" := by
  have hen : language ≠ "en" := by
    intro he
    subst he
    simp [LANGUAGE_NAMES, List.lookup] at h
  have h1 : lang_name language = "English" := by
    simp [lang_name, h]
  refine ⟨h1, ?_, by decide⟩
  have hbne : (language != "en") = true := by
    simpa using hen
  simp [language_instruction, hbne, h1]

/-- C3 witness: the amended claim at the concrete unknown code "fr". -/
theorem create_agent_unknown_language_witness :
    lang_name "fr" = "English" ∧
    language_instruction "fr" = languageInstructionText "English" ∧
    languageInstructionText "English" ≠ "" :=
  create_agent_unknown_language "fr" (by decide)

/-- C9: the agent the `POST /chat` handler constructs never depends on any
request content — its instruction text is the default-"en" instruction text
for every request, the "en" language override is empty, and the instruction
text contains no language-override block. `ChatRequest` carries no language
field, so no client input can select another persona. -/
theorem chat_uses_english_persona (db db' : Option String) (fresh fresh' : String)
    (req req' : ChatRequest) :
    (chat_agent db fresh req).instructions = (chat_agent db' fresh' req').instructions ∧
    (chat_agent db fresh req).instructions = agent_instructions "en" ∧
    language_instruction "en" = "" ∧
    strContains "IMPORTANT: You MUST respond in" (agent_instructions "en") = false :=
  ⟨rfl, rfl, rfl, by decide⟩

/-- C4: the handler's extraction block equals the spec's ordered extraction
strategy, first match winning: (1) truthy content — nested text field, plain
text, or default stringification; (2) else a non-empty message list scanned
from most recent to oldest for the first message with truthy content; (3)
else the stringification of the whole result. -/
theorem extract_text_matches_spec (rr : RunResponse) :
    extract_response_text (Option.some rr) = spec_extract rr := by
  obtain ⟨rcontent, rmessages, rstr⟩ := rr
  cases rcontent with
  | none =>
    cases rmessages with
    | none => rfl
    | some ms =>
      simp [extract_response_text, spec_extract, messagesOrRepr, scanMessages_eq_specScan]
  | some c =>
    by_cases hc : c.isTruthy = true
    · simp [extract_response_text, spec_extract, hc]
    · replace hc : c.isTruthy = false := by
        cases hb : c.isTruthy
        · rfl
        · exact absurd hb hc
      cases rmessages with
      | none => simp [extract_response_text, spec_extract, messagesOrRepr, hc]
      | some ms =>
        simp [extract_response_text, spec_extract, messagesOrRepr, hc,
          scanMessages_eq_specScan]

/-- C1: a validated request whose message trips the crisis screener makes the
endpoint return exactly the constant crisis text with `is_crisis = true`; the
result does not depend on the database setting or on the model invocation
(the agent is never consulted), and any two crisis-triggering requests
receive the identical response text. -/
theorem chat_crisis_short_circuit
    (db db' : Option String) (fresh : String)
    (run run' : Agent → String → RunOutcome) (req req' : ChatRequest)
    (h : detect_crisis req.message = true) (hv : validate_chat_request req = true)
    (h' : detect_crisis req'.message = true) (hv' : validate_chat_request req' = true) :
    post_chat db fresh run req =
      Except.ok ⟨get_crisis_response, resolve_session_id fresh req, true⟩ ∧
    post_chat db fresh run req = post_chat db' fresh run' req ∧
    post_chat db fresh run req' =
      Except.ok ⟨get_crisis_response, resolve_session_id fresh req', true⟩ := by
  have e : ∀ (d : Option String) (r : Agent → String → RunOutcome) (q : ChatRequest),
      detect_crisis q.message = true → validate_chat_request q = true →
      post_chat d fresh r q =
        Except.ok ⟨get_crisis_response, resolve_session_id fresh q, true⟩ := by
    intro d r q hc hval
    simp [post_chat, chat, hval, hc]
  refine ⟨e db run req h hv, ?_, e db run req' h' hv'⟩
  rw [e db run req h hv, e db' run' req h hv]

/-- C1 witness: two concrete crisis messages, under different database
settings and model behaviours, both produce the constant crisis response. -/
theorem chat_crisis_short_circuit_witness :
    post_chat Option.none "f-1" (fun _ _ => RunOutcome.exn "boom")
        ⟨"I feel suicidal", Option.some "s1", Option.none⟩ =
      Except.ok ⟨get_crisis_response, "s1", true⟩ ∧
    post_chat Option.none "f-1" (fun _ _ => RunOutcome.exn "boom")
        ⟨"I feel suicidal", Option.some "s1", Option.none⟩ =
      post_chat (Option.some "alt.db") "f-1" (fun _ _ => RunOutcome.ok Option.none)
        ⟨"I feel suicidal", Option.some "s1", Option.none⟩ ∧
    post_chat Option.none "f-1" (fun _ _ => RunOutcome.exn "boom")
        ⟨"I want to end my life", Option.some "s1", Option.none⟩ =
      Except.ok ⟨get_crisis_response, "s1", true⟩ :=
  chat_crisis_short_circuit Option.none (Option.some "alt.db") "f-1"
    (fun _ _ => RunOutcome.exn "boom") (fun _ _ => RunOutcome.ok Option.none)
    ⟨"I feel suicidal", Option.some "s1", Option.none⟩
    ⟨"I want to end my life", Option.some "s1", Option.none⟩
    (by decide) (by decide) (by decide) (by decide)

/-- C6 counterexample: a request that DOES supply a session_id — the empty
string, which pydantic accepts — receives a response whose session_id is the
freshly generated one, not the supplied one, because Python's
`request.session_id or str(uuid4())` treats the empty string as absent. -/
theorem chat_session_id_counterexample :
    post_chat Option.none "fresh-1234" (fun _ _ => RunOutcome.ok Option.none)
        ⟨"hello", Option.some "", Option.none⟩ =
      Except.ok ⟨FALLBACK_TEXT, "fresh-1234", false⟩ ∧
    (⟨"hello", Option.some "", Option.none⟩ : ChatRequest).session_id ≠
      Option.some "fresh-1234" :=
  ⟨rfl, by decide⟩

/-- C6 (amended): every successful response carries a non-empty session_id
(the generated id being non-empty): it equals the request's session_id when a
non-empty one was supplied, and equals the freshly generated id when the
request's session_id was absent or empty; is_crisis in the response equals
the screener's verdict on the message. -/
theorem chat_response_session_id
    (db : Option String) (fresh : String) (run : Agent → String → RunOutcome)
    (req : ChatRequest) (resp : ChatResponse)
    (hfresh : fresh ≠ "")
    (h : post_chat db fresh run req = Except.ok resp) :
    resp.session_id ≠ "" ∧
    (req.session_id = Option.some resp.session_id ∨
      ((req.session_id = Option.none ∨ req.session_id = Option.some "") ∧
        resp.session_id = fresh)) ∧
    resp.is_crisis = detect_crisis req.message := by
  have hsid : resolve_session_id fresh req ≠ "" ∧
      (req.session_id = Option.some (resolve_session_id fresh req) ∨
        ((req.session_id = Option.none ∨ req.session_id = Option.some "") ∧
          resolve_session_id fresh req = fresh)) := by
    unfold resolve_session_id
    cases hs : req.session_id with
    | none => exact ⟨hfresh, Or.inr ⟨Or.inl rfl, rfl⟩⟩
    | some s =>
      by_cases he : strIsEmpty s = true
      · have hse : s = "" := (strIsEmpty_iff s).mp he
        subst hse
        simp only [he, if_pos]
        exact ⟨hfresh, Or.inr ⟨Or.inr (by trivial), by trivial⟩⟩
      · replace he : strIsEmpty s = false := by
          cases hb : strIsEmpty s
          · rfl
          · exact absurd hb he
        have hne : s ≠ "" := fun hse => by
          subst hse
          simp [strIsEmpty] at he
        simp only [he, Bool.false_eq_true, if_false]
        exact ⟨hne, Or.inl (by trivial)⟩
  by_cases hval : validate_chat_request req = true
  · by_cases hc : detect_crisis req.message = true
    · have : resp = ⟨get_crisis_response, resolve_session_id fresh req, true⟩ := by
        simp [post_chat, chat, hval, hc] at h
        exact h.symm
      subst this
      exact ⟨hsid.1, hsid.2, hc.symm⟩
    · replace hc : detect_crisis req.message = false := by
        cases hb : detect_crisis req.message
        · rfl
        · exact absurd hb hc
      cases hrun : run (chat_agent db fresh req) req.message with
      | exn msg =>
        simp [post_chat, chat, hval, hc, hrun] at h
      | ok r =>
        have : resp = ⟨extract_text r, resolve_session_id fresh req, false⟩ := by
          simp [post_chat, chat, hval, hc, hrun] at h
          exact h.symm
        subst this
        exact ⟨hsid.1, hsid.2, hc.symm⟩
  · replace hval : validate_chat_request req = false := by
      cases hb : validate_chat_request req
      · rfl
      · exact absurd hb hval
    simp [post_chat, hval] at h

/-- C6 witness: a concrete request with a supplied non-empty session id and a
non-crisis message, run against a model returning no response. -/
theorem chat_response_session_id_witness :
    (⟨FALLBACK_TEXT, "sess-1", false⟩ : ChatResponse).session_id ≠ "" ∧
    ((⟨"hello", Option.some "sess-1", Option.none⟩ : ChatRequest).session_id =
        Option.some (⟨FALLBACK_TEXT, "sess-1", false⟩ : ChatResponse).session_id ∨
      (((⟨"hello", Option.some "sess-1", Option.none⟩ : ChatRequest).session_id =
            Option.none ∨
        (⟨"hello", Option.some "sess-1", Option.none⟩ : ChatRequest).session_id =
            Option.some "") ∧
        (⟨FALLBACK_TEXT, "sess-1", false⟩ : ChatResponse).session_id = "abc123")) ∧
    (⟨FALLBACK_TEXT, "sess-1", false⟩ : ChatResponse).is_crisis =
      detect_crisis (⟨"hello", Option.some "sess-1", Option.none⟩ : ChatRequest).message :=
  chat_response_session_id Option.none "abc123" (fun _ _ => RunOutcome.ok Option.none)
    ⟨"hello", Option.some "sess-1", Option.none⟩ ⟨FALLBACK_TEXT, "sess-1", false⟩
    (by decide) rfl

/-- C7: a request whose message is empty or longer than 5000 characters is
rejected with the fixed 4xx validation error, independently of the model
(the screener, agent factory and model are never reached); a message of
length 1..5000 passes validation and the request reaches the handler body. -/
theorem chat_request_validation
    (db : Option String) (fresh : String) (run run' : Agent → String → RunOutcome)
    (req : ChatRequest) :
    (¬ (1 ≤ req.message.length ∧ req.message.length ≤ 5000) →
      post_chat db fresh run req = Except.error VALIDATION_ERROR ∧
      post_chat db fresh run req = post_chat db fresh run' req) ∧
    ((1 ≤ req.message.length ∧ req.message.length ≤ 5000) →
      post_chat db fresh run req = chat db fresh run req) ∧
    (400 ≤ VALIDATION_ERROR.status_code ∧ VALIDATION_ERROR.status_code < 500) := by
  have hv : validate_chat_request req = true ↔
      1 ≤ req.message.length ∧ req.message.length ≤ 5000 := by
    simp [validate_chat_request]
  refine ⟨?_, ?_, by decide⟩
  · intro h
    have hfalse : validate_chat_request req = false := by
      cases hb : validate_chat_request req
      · rfl
      · exact absurd (hv.mp hb) h
    constructor <;> simp [post_chat, hfalse]
  · intro h
    simp [post_chat, hv.mpr h]

/-- C7 witness: the empty message is rejected with the validation error for
any model behaviour, and a one-word message reaches the handler body. -/
theorem chat_request_validation_witness :
    post_chat Option.none "f-4" (fun _ _ => RunOutcome.ok Option.none)
        ⟨"", Option.none, Option.none⟩ =
      Except.error VALIDATION_ERROR ∧
    post_chat Option.none "f-4" (fun _ _ => RunOutcome.ok Option.none)
        ⟨"hi", Option.none, Option.none⟩ =
      chat Option.none "f-4" (fun _ _ => RunOutcome.ok Option.none)
        ⟨"hi", Option.none, Option.none⟩ :=
  ⟨(chat_request_validation Option.none "f-4" (fun _ _ => RunOutcome.ok Option.none)
      (fun _ _ => RunOutcome.exn "other") ⟨"", Option.none, Option.none⟩).1
      (by decide) |>.1,
   (chat_request_validation Option.none "f-4" (fun _ _ => RunOutcome.ok Option.none)
      (fun _ _ => RunOutcome.exn "other") ⟨"hi", Option.none, Option.none⟩).2.1
      (by decide)⟩

/-- C8: any fault in the non-crisis branch (modelled as the model invocation
raising an exception with an arbitrary internal message) makes the endpoint
return the 500 error whose detail is exactly the fixed user-safe sentence —
the internal message does not influence the response. -/
theorem chat_unhandled_fault_masked
    (db : Option String) (fresh : String) (run : Agent → String → RunOutcome)
    (req : ChatRequest) (msg : String)
    (hval : validate_chat_request req = true)
    (hc : detect_crisis req.message = false)
    (hrun : run (chat_agent db fresh req) req.message = RunOutcome.exn msg) :
    post_chat db fresh run req = Except.error ⟨500, SERVER_ERROR_DETAIL⟩ ∧
    SERVER_ERROR_DETAIL =
      "I'm having trouble responding right now. Please try again in a moment." := by
  refine ⟨?_, rfl⟩
  simp [post_chat, chat, hval, hc, hrun]

/-- C8 witness: a concrete provider-configuration failure is masked by the
fixed 500 detail. -/
theorem chat_unhandled_fault_masked_witness :
    post_chat Option.none "f-2"
        (fun _ _ => RunOutcome.exn "ProviderConfigurationError: missing credential")
        ⟨"hello", Option.none, Option.none⟩ =
      Except.error ⟨500, SERVER_ERROR_DETAIL⟩ ∧
    SERVER_ERROR_DETAIL =
      "I'm having trouble responding right now. Please try again in a moment." :=
  chat_unhandled_fault_masked Option.none "f-2"
    (fun _ _ => RunOutcome.exn "ProviderConfigurationError: missing credential")
    ⟨"hello", Option.none, Option.none⟩ "ProviderConfigurationError: missing credential"
    (by decide) (by decide) rfl

/-- C10: when the run result is None, or when it carries no usable content
but a non-empty messages list in which no message has truthy content, the
extracted text stays empty and the endpoint returns the fixed fallback text
as a normal success with `is_crisis = false` — not an error, and not the
stringification of the result (the result's `str()` form is arbitrary here
and does not appear in the response). -/
theorem chat_empty_result_fallback
    (db : Option String) (fresh : String) (req : ChatRequest)
    (run run' : Agent → String → RunOutcome) (rr : RunResponse)
    (ms : List AgentMessage)
    (hval : validate_chat_request req = true)
    (hc : detect_crisis req.message = false) :
    (run (chat_agent db fresh req) req.message = RunOutcome.ok Option.none →
      post_chat db fresh run req =
        Except.ok ⟨FALLBACK_TEXT, resolve_session_id fresh req, false⟩) ∧
    (run' (chat_agent db fresh req) req.message = RunOutcome.ok (Option.some rr) →
      contentFalsy rr.content = true →
      rr.messages = Option.some ms →
      ms ≠ [] →
      (ms.all fun m => contentFalsy m.content) = true →
      post_chat db fresh run' req =
        Except.ok ⟨FALLBACK_TEXT, resolve_session_id fresh req, false⟩) := by
  constructor
  · intro hrun
    simp [post_chat, chat, hval, hc, hrun, extract_text, extract_response_text,
      filter_response_text, strIsEmpty]
  · intro hrun hcf hmsg hne hall
    have hie : ms.isEmpty = false := by
      cases ms with
      | nil => exact absurd rfl hne
      | cons a t => rfl
    have hscan : scanMessages ms.reverse = "" := by
      apply scanMessages_all_falsy
      simpa using hall
    have hext : extract_response_text (Option.some rr) = "" := by
      obtain ⟨rcontent, rmessages, rstr⟩ := rr
      simp only at hcf hmsg
      subst hmsg
      cases rcontent with
      | none => simp [extract_response_text, messagesOrRepr, hie, hscan]
      | some c =>
        have hct : c.isTruthy = false := by
          simp only [contentFalsy, Bool.not_eq_true'] at hcf
          exact hcf
        simp [extract_response_text, messagesOrRepr, hct, hie, hscan]
    have hfix : extract_text (Option.some rr) = FALLBACK_TEXT := by
      simp [extract_text, hext, filter_response_text, strIsEmpty]
    simp [post_chat, chat, hval, hc, hrun, hfix]

/-- C10 witness: the None result and a result whose messages all lack content
both yield the fallback as a 200 success. -/
theorem chat_empty_result_fallback_witness :
    post_chat Option.none "f-3" (fun _ _ => RunOutcome.ok Option.none)
        ⟨"hello", Option.some "s9", Option.none⟩ =
      Except.ok ⟨FALLBACK_TEXT, "s9", false⟩ ∧
    post_chat Option.none "f-3"
        (fun _ _ => RunOutcome.ok (Option.some ⟨Option.some (ContentVal.str ""),
          Option.some [⟨Option.none⟩, ⟨Option.some (ContentVal.str "")⟩],
          "<agno.agent.RunResponse object at 0x7f>"⟩))
        ⟨"hello", Option.some "s9", Option.none⟩ =
      Except.ok ⟨FALLBACK_TEXT, "s9", false⟩ := by
  have h := chat_empty_result_fallback Option.none "f-3"
    ⟨"hello", Option.some "s9", Option.none⟩
    (fun _ _ => RunOutcome.ok Option.none)
    (fun _ _ => RunOutcome.ok (Option.some ⟨Option.some (ContentVal.str ""),
      Option.some [⟨Option.none⟩, ⟨Option.some (ContentVal.str "")⟩],
      "<agno.agent.RunResponse object at 0x7f>"⟩))
    ⟨Option.some (ContentVal.str ""),
      Option.some [⟨Option.none⟩, ⟨Option.some (ContentVal.str "")⟩],
      "<agno.agent.RunResponse object at 0x7f>"⟩
    [⟨Option.none⟩, ⟨Option.some (ContentVal.str "")⟩]
    (by decide) (by decide)
  exact ⟨h.1 rfl, h.2 rfl (by decide) rfl (by decide) (by decide)⟩
